import Mathlib

/-!
Verification of the `promhttp` outgoing-HTTP-client instrumentation
(`client.go`): a decorator chain of transport-wrapping layers that record
prometheus metrics around an underlying transport.

Shallow embedding conventions:

* Go strings are Lean `String`s; `len` is `String.length`.
* Go `int` / `int64` are Lean `Int` (the claims are not about overflow).
* A `http.RoundTripper` is a function from a request to a result
  (`Except` error / response) paired with the list of metric events
  (gauge increments/decrements, counter increments, histogram
  observations) it records, in order.  Errors are opaque Go `error`
  values, modelled as `String`s.
* Wall-clock time is external to the functional model: an elapsed-time
  observation is recorded as an `Event.observeTime` naming the histogram
  and labels but carrying no numeric value.
* The layers taken from the external `promhttp` library
  (`InstrumentRoundTripperInFlight`, `InstrumentRoundTripperCounter`,
  `InstrumentRoundTripperTrace`, `InstrumentRoundTripperDuration`) and
  the prometheus registry are not part of this repository's sources;
  they are modelled from the specification's description of their
  interface boundary, and each such definition says so in its doc
  comment.
-/

namespace Promhttp

/-- Modelled from the spec: four synchronous phase hooks
(DNS-lookup-start, DNS-lookup-done, TLS-handshake-start,
TLS-handshake-done), each recording an elapsed-time observation into a
histogram under a label naming the phase event.  Each hook is modelled
by the data it observes with: the histogram's name and the value of the
`event` label (the hooks' closures in `instrumentClientWithConstLabels`
lines 104-117 are fully determined by this data). -/
structure InstrumentTrace where
  dnsStart : String × String
  dnsDone : String × String
  tlsHandshakeStart : String × String
  tlsHandshakeDone : String × String
deriving DecidableEq, Repr

/-- An outgoing `http.Request`, restricted to the fields `client.go`
reads: method, protocol, URL (a nullable pointer whose only use is its
serialization `r.URL.String()`, so it is modelled as the serialized
string), headers, host and declared content length (`int64`, `-1`
meaning unknown).  The `trace` field models the `httptrace.ClientTrace`
that `promhttp.InstrumentRoundTripperTrace` attaches to the request's
context for the underlying transport to invoke. -/
structure Request where
  method : String
  proto : String
  url : Option String
  header : List (String × List String)
  host : String
  contentLength : Int
  trace : Option InstrumentTrace := none
deriving DecidableEq, Repr

/-- An incoming `http.Response`, restricted to the fields `client.go`
reads: status code and declared content length (`int64`, possibly `-1`
when unknown). -/
structure Response where
  statusCode : Int
  contentLength : Int
deriving DecidableEq, Repr

/-- `computeApproximateRequestSize` (client.go lines 156-178), line by
line: start from 0; if the URL pointer is non-nil add the length of its
serialization; add the lengths of method and protocol; for each header
add the name's length and each value's length; add the host's length;
finally, if the declared content length is not the unknown sentinel
`-1`, add it. -/
def computeApproximateRequestSize (r : Request) : Int :=
  let s : Int := 0
  let s := match r.url with
    | some u => s + (u.length : Int)
    | none => s
  let s := s + (r.method.length : Int)
  let s := s + (r.proto.length : Int)
  let s := r.header.foldl
    (fun s nv => nv.2.foldl (fun s v => s + (v.length : Int)) (s + (nv.1.length : Int))) s
  let s := s + (r.host.length : Int)
  if r.contentLength ≠ -1 then s + r.contentLength else s

/-- The size formula as the specification words it (§4.1): the sum of
the serialized URL's character length, the method string length, the
protocol string length, each header name's length plus each of its
values' lengths, the host string length, and the declared content
length if it is known (the unknown sentinel `-1` contributing zero).
Stated independently of the source function, to be compared with it. -/
def approximateRequestSizeSpec (r : Request) : Int :=
  (match r.url with | some u => (u.length : Int) | none => 0)
    + (r.method.length : Int)
    + (r.proto.length : Int)
    + (r.header.map
        (fun nv => (nv.1.length : Int) + (nv.2.map (fun v => (v.length : Int))).sum)).sum
    + (r.host.length : Int)
    + (if r.contentLength = -1 then 0 else r.contentLength)

/-- `prometheus.CounterOpts`, restricted to the fields `client.go` sets.
`nspace` stands for the Go field `Namespace` (a Lean keyword). -/
structure CounterOpts where
  nspace : String
  subsystem : String
  name : String
  help : String
  constLabels : List (String × String)
deriving DecidableEq, Repr

/-- `prometheus.HistogramOpts`, restricted to the fields `client.go`
sets.  Bucket boundaries are float64 values in Go; they are exact
decimal constants, modelled as rationals. -/
structure HistogramOpts where
  nspace : String
  subsystem : String
  name : String
  help : String
  buckets : List Rat
  constLabels : List (String × String)
deriving DecidableEq, Repr

/-- `prometheus.GaugeOpts`, restricted to the fields `client.go` sets. -/
structure GaugeOpts where
  nspace : String
  subsystem : String
  name : String
  help : String
  constLabels : List (String × String)
deriving DecidableEq, Repr

/-- A `prometheus.CounterVec`: a labeled counter identified by its
options and variable label names (its mutable state lives in the
external metrics library and is observed only through events). -/
structure CounterVec where
  opts : CounterOpts
  labelNames : List String
deriving DecidableEq, Repr

/-- A `prometheus.HistogramVec`: a labeled histogram identified by its
options and variable label names. -/
structure HistogramVec where
  opts : HistogramOpts
  labelNames : List String
deriving DecidableEq, Repr

/-- A `prometheus.Gauge`: an unlabeled gauge identified by its options. -/
structure Gauge where
  opts : GaugeOpts
deriving DecidableEq, Repr

/-- One metric side effect recorded by an instrumentation layer, in
program order.  Elapsed-time observations (`observeTime`) carry no
numeric value because wall-clock time is external to the functional
model; integer-valued observations (`observe`) carry their exact value. -/
inductive Event where
  | gaugeInc (metric : String)
  | gaugeDec (metric : String)
  | counterInc (metric : String) (labels : List (String × String))
  | observe (metric : String) (labels : List (String × String)) (value : Int)
  | observeTime (metric : String) (labels : List (String × String))
deriving DecidableEq, Repr

/-- An `http.RoundTripper`: a request goes in, a response or an error
comes out, together with the ordered list of metric events the call
recorded. -/
def RoundTripper : Type := Request → Except String Response × List Event

/-- Modelled from the spec: `http.DefaultTransport`, the external
network transport substituted when the base client has no transport
set.  Its network behavior is outside the model; it is needed only as a
distinguished transport value. -/
def DefaultTransport : RoundTripper :=
  fun _ => (Except.error "external default transport", [])

/-- Modelled from the spec: `promhttp.InstrumentRoundTripperInFlight`
increments the gauge before delegating and decrements it after
delegating unconditionally, including on failure, passing the
delegate's result through. -/
def InstrumentRoundTripperInFlight (gauge : Gauge) (next : RoundTripper) : RoundTripper :=
  fun r =>
    let out := next r
    (out.1, Event.gaugeInc gauge.opts.name :: (out.2 ++ [Event.gaugeDec gauge.opts.name]))

/-- Modelled from the spec: `promhttp.InstrumentRoundTripperCounter`
increments, after delegating and on success only, the counter keyed by
the response status code and the lower-cased request method, passing
the delegate's result through; on failure it does not increment. -/
def InstrumentRoundTripperCounter (counter : CounterVec) (next : RoundTripper) : RoundTripper :=
  fun r =>
    let out := next r
    let evs := match out.1 with
      | Except.ok resp => out.2 ++ [Event.counterInc counter.opts.name
          [("code", toString resp.statusCode), ("method", r.method.toLower)]]
      | Except.error _ => out.2
    (out.1, evs)

/-- Modelled from the spec: `promhttp.InstrumentRoundTripperTrace`
attaches the phase hooks to the request (in Go, via an
`httptrace.ClientTrace` in the request context) so the underlying
transport's connection-establishment logic can invoke them, then
delegates; it records nothing itself and passes the result through. -/
def InstrumentRoundTripperTrace (trace : InstrumentTrace) (next : RoundTripper) : RoundTripper :=
  fun r => next { r with trace := some trace }

/-- Modelled from the spec: `promhttp.InstrumentRoundTripperDuration`
measures wall-clock elapsed time around the delegate call and observes
it into the duration histogram labeled by method only, passing the
result through. -/
def InstrumentRoundTripperDuration (obs : HistogramVec) (next : RoundTripper) : RoundTripper :=
  fun r =>
    let out := next r
    (out.1, out.2 ++ [Event.observeTime obs.opts.name [("method", r.method.toLower)]])

/-- `instrumentRoundTripperRequestSize` (client.go lines 141-154):
delegate; if the error is nil, observe the approximate request size
into the histogram labeled by the response status code (printed) and
the lower-cased request method; return the delegate's response and
error. -/
def instrumentRoundTripperRequestSize (obs : HistogramVec) (next : RoundTripper) : RoundTripper :=
  fun r =>
    let out := next r
    let evs := match out.1 with
      | Except.ok resp =>
          out.2 ++ [Event.observe obs.opts.name
            [("code", toString resp.statusCode), ("method", r.method.toLower)]
            (computeApproximateRequestSize r)]
      | Except.error _ => out.2
    (out.1, evs)

/-- `instrumentRoundTripperResponseContentLength` (client.go lines
180-193): delegate; if the error is nil, observe the response's
declared content length into the histogram labeled by the response
status code (printed) and the lower-cased request method; return the
delegate's response and error. -/
def instrumentRoundTripperResponseContentLength (obs : HistogramVec) (next : RoundTripper) : RoundTripper :=
  fun r =>
    let out := next r
    let evs := match out.1 with
      | Except.ok resp =>
          out.2 ++ [Event.observe obs.opts.name
            [("code", toString resp.statusCode), ("method", r.method.toLower)]
            resp.contentLength]
      | Except.error _ => out.2
    (out.1, evs)

/-- Modelled from the spec: the constant `subsystemHTTPOutgoing` is
defined in a repository file outside `src/`; the spec fixes the
subsystem tag to `http_outgoing`. -/
def subsystemHTTPOutgoing : String := "http_outgoing"

/-- Modelled from the spec: `prometheus.DefBuckets`, the library's
standard latency buckets (documented as .005, .01, .025, .05, .1, .25,
.5, 1, 2.5, 5, 10 seconds). -/
def DefBuckets : List Rat :=
  [1/200, 1/100, 1/40, 1/20, 1/10, 1/4, 1/2, 1, 5/2, 5, 10]

/-- `outgoingInstrumentation` (client.go lines 195-203): the Metric
Set, one field per instrument, in source declaration order. -/
structure outgoingInstrumentation where
  duration : HistogramVec
  requests : CounterVec
  dnsDuration : HistogramVec
  tlsDuration : HistogramVec
  inflight : Gauge
  requestSize : HistogramVec
  responseContentLength : HistogramVec
deriving DecidableEq, Repr

/-- The `outgoingInstrumentation` literal built by
`instrumentClientWithConstLabels` (client.go lines 28-102), field by
field with the source's names, help strings and buckets. -/
def mkOutgoingInstrumentation (nspace : String)
    (constLabels : List (String × String)) : outgoingInstrumentation where
  requests :=
    { opts :=
        { nspace := nspace
          subsystem := subsystemHTTPOutgoing
          name := "requests_total"
          help := "A counter for outgoing requests from the wrapped client."
          constLabels := constLabels }
      labelNames := ["code", "method"] }
  requestSize :=
    { opts :=
        { nspace := nspace
          subsystem := subsystemHTTPOutgoing
          name := "request_size_histogram_bytes"
          help := "Request size in bytes."
          buckets := [100, 1000, 2000, 5000, 10000]
          constLabels := constLabels }
      labelNames := ["code", "method"] }
  responseContentLength :=
    { opts :=
        { nspace := nspace
          subsystem := subsystemHTTPOutgoing
          name := "response_content_length_histogram"
          help := "Response content length in bytes."
          buckets := [100, 1000, 2000, 5000, 10000]
          constLabels := constLabels }
      labelNames := ["code", "method"] }
  duration :=
    { opts :=
        { nspace := nspace
          subsystem := subsystemHTTPOutgoing
          name := "request_duration_histogram_seconds"
          help := "A histogram of outgoing request latencies."
          buckets := DefBuckets
          constLabels := constLabels }
      labelNames := ["method"] }
  dnsDuration :=
    { opts :=
        { nspace := nspace
          subsystem := subsystemHTTPOutgoing
          name := "dns_duration_histogram_seconds"
          help := "Trace dns latency histogram."
          buckets := [1/200, 1/100, 1/40, 1/20]
          constLabels := constLabels }
      labelNames := ["event"] }
  tlsDuration :=
    { opts :=
        { nspace := nspace
          subsystem := subsystemHTTPOutgoing
          name := "tls_duration_histogram_seconds"
          help := "Trace tls latency histogram."
          buckets := [1/20, 1/10, 1/4, 1/2]
          constLabels := constLabels }
      labelNames := ["event"] }
  inflight :=
    { opts :=
        { nspace := nspace
          subsystem := subsystemHTTPOutgoing
          name := "in_flight_requests"
          help := "A gauge of in-flight outgoing requests for the wrapped client."
          constLabels := constLabels } }

/-- The `pph.InstrumentTrace` literal built by
`instrumentClientWithConstLabels` (client.go lines 104-117): each hook
observes into the dns or tls histogram under the named `event` label. -/
def mkInstrumentTrace (i : outgoingInstrumentation) : InstrumentTrace where
  dnsStart := (i.dnsDuration.opts.name, "dns_start")
  dnsDone := (i.dnsDuration.opts.name, "dns_done")
  tlsHandshakeStart := (i.tlsDuration.opts.name, "tls_handshake_start")
  tlsHandshakeDone := (i.tlsDuration.opts.name, "tls_handshake_done")

/-- One of the Metric Set's contained instruments, tagged with its
kind (counter, histogram or gauge). -/
inductive Instrument where
  | counterVec (c : CounterVec)
  | histogramVec (h : HistogramVec)
  | gauge (g : Gauge)
deriving DecidableEq, Repr

/-- Kind discriminator for counting instruments of each kind. -/
def Instrument.isCounter : Instrument → Bool
  | Instrument.counterVec _ => true
  | _ => false

/-- Kind discriminator for counting instruments of each kind. -/
def Instrument.isHistogram : Instrument → Bool
  | Instrument.histogramVec _ => true
  | _ => false

/-- Kind discriminator for counting instruments of each kind. -/
def Instrument.isGauge : Instrument → Bool
  | Instrument.gauge _ => true
  | _ => false

/-- The namespace an instrument was created with. -/
def Instrument.nspace : Instrument → String
  | Instrument.counterVec c => c.opts.nspace
  | Instrument.histogramVec h => h.opts.nspace
  | Instrument.gauge g => g.opts.nspace

/-- The subsystem tag an instrument was created with. -/
def Instrument.subsystem : Instrument → String
  | Instrument.counterVec c => c.opts.subsystem
  | Instrument.histogramVec h => h.opts.subsystem
  | Instrument.gauge g => g.opts.subsystem

/-- The constant label set an instrument was created with. -/
def Instrument.constLabels : Instrument → List (String × String)
  | Instrument.counterVec c => c.opts.constLabels
  | Instrument.histogramVec h => h.opts.constLabels
  | Instrument.gauge g => g.opts.constLabels

/-- `Describe` (client.go lines 206-214) sends each contained
instrument's descriptors to a channel by delegating to the instruments
one after another; the model records the delegation order as a list. -/
def outgoingInstrumentation.Describe (i : outgoingInstrumentation) : List Instrument :=
  [Instrument.histogramVec i.duration,
   Instrument.counterVec i.requests,
   Instrument.histogramVec i.dnsDuration,
   Instrument.histogramVec i.tlsDuration,
   Instrument.gauge i.inflight,
   Instrument.histogramVec i.requestSize,
   Instrument.histogramVec i.responseContentLength]

/-- `Collect` (client.go lines 217-225) sends each contained
instrument's current metrics to a channel by delegating to the
instruments one after another; the model records the delegation order
as a list. -/
def outgoingInstrumentation.Collect (i : outgoingInstrumentation) : List Instrument :=
  [Instrument.histogramVec i.duration,
   Instrument.counterVec i.requests,
   Instrument.histogramVec i.dnsDuration,
   Instrument.histogramVec i.tlsDuration,
   Instrument.gauge i.inflight,
   Instrument.histogramVec i.requestSize,
   Instrument.histogramVec i.responseContentLength]

/-- Modelled from the spec: a `prometheus.Desc`, the identity under
which the registry enforces uniqueness — fully-qualified name
(namespace, subsystem, name), constant labels and variable label
names. -/
structure Desc where
  fqName : String
  constLabels : List (String × String)
  variableLabels : List String
deriving DecidableEq, Repr

/-- Modelled from the spec: `prometheus.BuildFQName` joins the
non-empty parts of namespace, subsystem and name with underscores. -/
def BuildFQName (nspace subsystem name : String) : String :=
  (List.filter (fun s => s ≠ "") [nspace, subsystem, name]).intersperse "_" |>.foldl (· ++ ·) ""

/-- The descriptor an instrument registers under. -/
def Instrument.desc : Instrument → Desc
  | Instrument.counterVec c =>
      { fqName := BuildFQName c.opts.nspace c.opts.subsystem c.opts.name
        constLabels := c.opts.constLabels
        variableLabels := c.labelNames }
  | Instrument.histogramVec h =>
      { fqName := BuildFQName h.opts.nspace h.opts.subsystem h.opts.name
        constLabels := h.opts.constLabels
        variableLabels := h.labelNames }
  | Instrument.gauge g =>
      { fqName := BuildFQName g.opts.nspace g.opts.subsystem g.opts.name
        constLabels := g.opts.constLabels
        variableLabels := [] }

/-- The descriptors the Metric Set presents to the registry, in
`Describe` order. -/
def outgoingInstrumentation.descs (i : outgoingInstrumentation) : List Desc :=
  i.Describe.map Instrument.desc

/-- Modelled from the spec: a `prometheus.Registerer`'s state is the
set of already-registered descriptors; `Register` calls the
collector's `Describe` and fails exactly when one of the produced
descriptors duplicates an already-registered one (duplicate metric
definition), otherwise it succeeds. -/
def Register (reg : List Desc) (i : outgoingInstrumentation) : Option String :=
  if i.descs.any (fun d => reg.contains d) then
    some "duplicate metrics collector registration attempted"
  else
    none

/-- An `http.Client`, restricted to the fields `client.go` reads and
sets: `Transport` (a nullable `http.RoundTripper`), `CheckRedirect`,
`Jar` and `Timeout`.  The redirect policy and cookie jar are externally
owned values the core only copies, so their types are parameters. -/
structure HttpClient (ρ ζ : Type) where
  transport : Option RoundTripper
  checkRedirect : ρ
  jar : ζ
  timeout : Int

/-- `instrumentClientWithConstLabels` (client.go lines 27-139): build
the Metric Set and the trace hooks, take the base client's transport or
the default transport when none is set, and return a fresh client
carrying the base's `CheckRedirect`, `Jar` and `Timeout` and the
six-layer decorator chain as its transport, paired with the result of
registering the Metric Set. -/
def instrumentClientWithConstLabels {ρ ζ : Type} (nspace : String) (c : HttpClient ρ ζ)
    (reg : List Desc) (constLabels : List (String × String)) :
    HttpClient ρ ζ × Option String :=
  let i := mkOutgoingInstrumentation nspace constLabels
  let trace := mkInstrumentTrace i
  let transport := match c.transport with
    | some t => t
    | none => DefaultTransport
  ({ checkRedirect := c.checkRedirect
     jar := c.jar
     timeout := c.timeout
     transport := some (InstrumentRoundTripperInFlight i.inflight
       (InstrumentRoundTripperCounter i.requests
         (InstrumentRoundTripperTrace trace
           (instrumentRoundTripperRequestSize i.requestSize
             (instrumentRoundTripperResponseContentLength i.responseContentLength
               (InstrumentRoundTripperDuration i.duration transport)))))) },
   Register reg i)

/-- The `Client` struct (client.go lines 13-17): a base `http.Client`
plus the registerer and namespace used for instrumentation. -/
structure Client (ρ ζ : Type) where
  client : HttpClient ρ ζ
  registerer : List Desc
  nspace : String

/-- `ForRecipient` (client.go lines 21-25): instrument the embedded
client with the constant label `recipient`. -/
def Client.ForRecipient {ρ ζ : Type} (c : Client ρ ζ) (recipient : String) :
    HttpClient ρ ζ × Option String :=
  instrumentClientWithConstLabels c.nspace c.client c.registerer
    [("recipient", recipient)]

/-- The transport the factory wraps (client.go lines 119-122): the base
client's transport, or `http.DefaultTransport` when none is set. -/
def baseTransport {ρ ζ : Type} (c : HttpClient ρ ζ) : RoundTripper :=
  match c.transport with
  | some t => t
  | none => DefaultTransport

/-- The request as the layers below the phase-trace layer see it: the
original request with the factory's phase hooks attached. -/
def tracedRequest (nspace : String) (cl : List (String × String)) (r : Request) : Request :=
  { r with trace := some (mkInstrumentTrace (mkOutgoingInstrumentation nspace cl)) }

/-- The label set the counter and the two size layers observe under:
the response's status code (printed) and the lower-cased request
method. -/
def codeMethodLabels (r : Request) (resp : Response) : List (String × String) :=
  [("code", toString resp.statusCode), ("method", r.method.toLower)]

/-- The exact event trace of the factory's decorator chain around one
underlying-transport outcome `out`: the in-flight gauge brackets
everything; inside it come the underlying transport's own events (which
include any phase-hook observations), then the post-observations in
innermost-to-outermost layer order — duration, then (on success only)
response content length, request size and the completion counter. -/
def chainEvents (r : Request) (out : Except String Response × List Event) : List Event :=
  Event.gaugeInc "in_flight_requests" ::
    (out.2
      ++ [Event.observeTime "request_duration_histogram_seconds"
            [("method", r.method.toLower)]]
      ++ (match out.1 with
          | Except.ok resp =>
              [Event.observe "response_content_length_histogram" (codeMethodLabels r resp)
                 resp.contentLength,
               Event.observe "request_size_histogram_bytes" (codeMethodLabels r resp)
                 (computeApproximateRequestSize r),
               Event.counterInc "requests_total" (codeMethodLabels r resp)]
          | Except.error _ => [])
      ++ [Event.gaugeDec "in_flight_requests"])

/-- Whether an event is a histogram observation into the named metric. -/
def Event.isObserveOf (metric : String) : Event → Bool
  | Event.observe m _ _ => m = metric
  | _ => false

/-- Whether an event is a counter increment of the named metric. -/
def Event.isCounterIncOf (metric : String) : Event → Bool
  | Event.counterInc m _ => m = metric
  | _ => false

/-- Whether an event records into the completion counter, the
request-size histogram or the response-size histogram — the three
instruments that must stay silent on failed requests. -/
def Event.isCompletionObservation (e : Event) : Bool :=
  e.isCounterIncOf "requests_total"
    || e.isObserveOf "request_size_histogram_bytes"
    || e.isObserveOf "response_content_length_histogram"

/-- A concrete underlying transport for witnesses: every request
succeeds with HTTP 200 and content length 42, recording no events. -/
def okTransport : RoundTripper :=
  fun _ => (Except.ok { statusCode := 200, contentLength := 42 }, [])

/-- A concrete base client around `okTransport`. -/
def okClient : HttpClient Unit Unit :=
  { transport := some okTransport, checkRedirect := (), jar := (), timeout := 5 }

/-- A concrete `Client` whose base client has no transport set. -/
def noneClient : Client Unit Unit :=
  { client := { transport := none, checkRedirect := (), jar := (), timeout := 7 }
    registerer := []
    nspace := "app" }

/-- A concrete GET request for witnesses. -/
def getRequest : Request :=
  { method := "GET"
    proto := "HTTP/1.1"
    url := some "http://example.com/d"
    header := [("Accept", ["text/plain"])]
    host := "example.com"
    contentLength := 0 }

/-- A registry state already holding every descriptor of the Metric Set
for namespace `app` and recipient `billing`, so registering that Metric
Set again fails. -/
def dupRegistry : List Desc :=
  (mkOutgoingInstrumentation "app" [("recipient", "billing")]).descs

/-- Rewriting a left fold that only accumulates additions into the sum
of the mapped list. -/
theorem foldl_add_eq_sum {α : Type} (f : α → Int) (l : List α) (n : Int) :
    l.foldl (fun s x => s + f x) n = n + (l.map f).sum := by
  induction l generalizing n with
  | nil => simp
  | cons x xs ih => simp [List.foldl_cons, ih, add_assoc]

/-- The header part of the source's nested fold equals the sum of the
per-header contributions. -/
theorem header_foldl_eq_sum (hs : List (String × List String)) (n : Int) :
    hs.foldl
      (fun s nv => nv.2.foldl (fun s v => s + (v.length : Int)) (s + (nv.1.length : Int))) n
      = n + (hs.map
          (fun nv => (nv.1.length : Int) + (nv.2.map (fun v => (v.length : Int))).sum)).sum := by
  rw [List.foldl_ext
    (g := fun s nv =>
      s + ((nv.1.length : Int) + (nv.2.map (fun v => (v.length : Int))).sum))]
  · exact foldl_add_eq_sum _ hs n
  · intro s nv _
    rw [foldl_add_eq_sum]
    ring

/-- The source function computes exactly the specification's sum. -/
theorem computeApproximateRequestSize_eq_spec (r : Request) :
    computeApproximateRequestSize r = approximateRequestSizeSpec r := by
  unfold computeApproximateRequestSize approximateRequestSizeSpec
  simp only [header_foldl_eq_sum]
  cases r.url <;> by_cases h : r.contentLength = -1 <;> simp [h]

/-- Attaching the phase hooks leaves the size computation unchanged:
the estimator reads no field the trace layer touches. -/
theorem computeApproximateRequestSize_traced (n : String) (cl : List (String × String))
    (r : Request) :
    computeApproximateRequestSize (tracedRequest n cl r) = computeApproximateRequestSize r := rfl

/-- Attaching the phase hooks leaves the method unchanged. -/
theorem tracedRequest_method (n : String) (cl : List (String × String)) (r : Request) :
    (tracedRequest n cl r).method = r.method := rfl

/-- Attaching any phase hooks leaves the size computation unchanged. -/
theorem computeApproximateRequestSize_trace_update (r : Request) (tr : InstrumentTrace) :
    computeApproximateRequestSize { r with trace := some tr }
      = computeApproximateRequestSize r := rfl

/-- The three innermost layers (request size around response content
length around duration) applied to any underlying transport: the
outcome passes through, the duration observation comes first, then on
success the content-length and request-size observations. -/
theorem inner_layers_apply (h1 h2 h3 : HistogramVec) (b : RoundTripper) (x : Request) :
    (instrumentRoundTripperRequestSize h1
      (instrumentRoundTripperResponseContentLength h2
        (InstrumentRoundTripperDuration h3 b))) x
    = ((b x).1,
       (b x).2 ++ [Event.observeTime h3.opts.name [("method", x.method.toLower)]]
         ++ (match (b x).1 with
             | Except.ok resp =>
                 [Event.observe h2.opts.name (codeMethodLabels x resp) resp.contentLength,
                  Event.observe h1.opts.name (codeMethodLabels x resp)
                    (computeApproximateRequestSize x)]
             | Except.error _ => [])) := by
  cases ho : (b x).1 <;>
    simp [instrumentRoundTripperRequestSize, instrumentRoundTripperResponseContentLength,
      InstrumentRoundTripperDuration, codeMethodLabels, ho]

/-- The three outermost layers (in-flight gauge around completion
counter around phase-trace) applied to any inner transport: the
gauge increment and decrement bracket everything, the counter
increment comes after the inner events and only on success, and the
inner transport receives the hook-carrying request. -/
theorem outer_layers_apply (g : Gauge) (cv : CounterVec) (tr : InstrumentTrace)
    (inner : RoundTripper) (r : Request) :
    (InstrumentRoundTripperInFlight g
      (InstrumentRoundTripperCounter cv
        (InstrumentRoundTripperTrace tr inner))) r
    = ((inner { r with trace := some tr }).1,
       Event.gaugeInc g.opts.name ::
         ((inner { r with trace := some tr }).2
           ++ (match (inner { r with trace := some tr }).1 with
               | Except.ok resp => [Event.counterInc cv.opts.name (codeMethodLabels r resp)]
               | Except.error _ => [])
           ++ [Event.gaugeDec g.opts.name])) := by
  cases ho : (inner { r with trace := some tr }).1 <;>
    simp [InstrumentRoundTripperInFlight, InstrumentRoundTripperCounter,
      InstrumentRoundTripperTrace, codeMethodLabels, ho]

/-- The transport field the factory returns is the six-layer chain
around the base client's transport (or the default one). -/
theorem instrumented_transport_eq {ρ ζ : Type} (n : String) (c : HttpClient ρ ζ)
    (reg : List Desc) (cl : List (String × String)) :
    (instrumentClientWithConstLabels n c reg cl).1.transport
      = some (InstrumentRoundTripperInFlight (mkOutgoingInstrumentation n cl).inflight
          (InstrumentRoundTripperCounter (mkOutgoingInstrumentation n cl).requests
            (InstrumentRoundTripperTrace (mkInstrumentTrace (mkOutgoingInstrumentation n cl))
              (instrumentRoundTripperRequestSize (mkOutgoingInstrumentation n cl).requestSize
                (instrumentRoundTripperResponseContentLength
                  (mkOutgoingInstrumentation n cl).responseContentLength
                  (InstrumentRoundTripperDuration (mkOutgoingInstrumentation n cl).duration
                    (baseTransport c))))))) := by
  cases hc : c.transport <;> simp [instrumentClientWithConstLabels, baseTransport, hc]

/-- Applying the transport built by `instrumentClientWithConstLabels`
to a request: the functional outcome is the underlying transport's
outcome on the hook-carrying request, and the events are exactly
`chainEvents` around that outcome. -/
theorem instrumented_transport_apply {ρ ζ : Type} (n : String) (c : HttpClient ρ ζ)
    (reg : List Desc) (cl : List (String × String)) (r : Request) :
    ((instrumentClientWithConstLabels n c reg cl).1.transport.getD DefaultTransport) r
      = ((baseTransport c (tracedRequest n cl r)).1,
         chainEvents r (baseTransport c (tracedRequest n cl r))) := by
  rw [instrumented_transport_eq, Option.getD_some, outer_layers_apply, inner_layers_apply]
  cases ho : (baseTransport c (tracedRequest n cl r)).1 <;>
    simp [chainEvents, tracedRequest, mkOutgoingInstrumentation, codeMethodLabels,
      computeApproximateRequestSize_trace_update, ho] at ho ⊢ <;>
    simp [ho]

/-- An event that is none of the three success-only observations is in
particular not any single one of them. -/
theorem completion_false_components (e : Event)
    (h : Event.isCompletionObservation e = false) :
    Event.isCounterIncOf "requests_total" e = false
    ∧ Event.isObserveOf "request_size_histogram_bytes" e = false
    ∧ Event.isObserveOf "response_content_length_histogram" e = false := by
  simp only [Event.isCompletionObservation, Bool.or_eq_false_iff] at h
  exact ⟨h.1.1, h.1.2, h.2⟩

/-- C1: each instrumentation layer — in particular the request-size
layer and the response-content-length layer — returns exactly the
response and error produced by the transport it wraps, unmodified, and
the whole factory-built chain returns exactly the functional outcome of
the underlying transport: no layer recovers from, retries or wraps the
error. -/
theorem layers_pass_through_functional_outcome :
    (∀ (obs : HistogramVec) (next : RoundTripper) (r : Request),
        ((instrumentRoundTripperRequestSize obs next) r).1 = (next r).1
        ∧ ((instrumentRoundTripperResponseContentLength obs next) r).1 = (next r).1)
    ∧ (∀ (ρ ζ : Type) (n : String) (c : HttpClient ρ ζ) (reg : List Desc)
        (cl : List (String × String)) (r : Request),
        (((instrumentClientWithConstLabels n c reg cl).1.transport.getD DefaultTransport) r).1
          = (baseTransport c (tracedRequest n cl r)).1) := by
  constructor
  · intro obs next r
    exact ⟨rfl, rfl⟩
  · intro ρ ζ n c reg cl r
    rw [instrumented_transport_apply]

/-- C2: the decorator chain built by the factory has the fixed nesting
order — in-flight gauge outermost, then completion counter, phase
trace, request size, response size, and duration innermost around the
base transport.  Behaviorally: the gauge increment and decrement
bracket all events; the base transport is called once, with the phase
hooks the trace layer attaches, and its events come first inside the
bracket; the post-observations then appear in
innermost-to-outermost order (duration, response size, request size,
completion counter); the functional outcome is the base transport's. -/
theorem decorator_chain_nesting_order {ρ ζ : Type} (n : String) (c : HttpClient ρ ζ)
    (reg : List Desc) (cl : List (String × String)) (r : Request) :
    ((instrumentClientWithConstLabels n c reg cl).1.transport.getD DefaultTransport) r
      = ((baseTransport c (tracedRequest n cl r)).1,
         chainEvents r (baseTransport c (tracedRequest n cl r))) :=
  instrumented_transport_apply n c reg cl r

/-- C3: when the underlying transport fails, the chain records no
completion-counter, request-size or response-size observation; when it
succeeds, the request-size and response-size histograms each receive
exactly one observation, labeled by the response status code and the
lower-cased request method.  The hypothesis states that the underlying
transport itself records none of those three observations (it can only
record phase-hook observations). -/
theorem observations_success_only {ρ ζ : Type} (n : String) (c : HttpClient ρ ζ)
    (reg : List Desc) (cl : List (String × String)) (r : Request)
    (hbase : ∀ (x : Request) (e : Event),
      e ∈ (baseTransport c x).2 → Event.isCompletionObservation e = false) :
    (∀ msg, (baseTransport c (tracedRequest n cl r)).1 = Except.error msg →
      ((((instrumentClientWithConstLabels n c reg cl).1.transport.getD DefaultTransport) r).2.filter
          Event.isCompletionObservation) = [])
    ∧ (∀ resp, (baseTransport c (tracedRequest n cl r)).1 = Except.ok resp →
      (((((instrumentClientWithConstLabels n c reg cl).1.transport.getD DefaultTransport) r).2.filter
          (Event.isObserveOf "request_size_histogram_bytes"))
        = [Event.observe "request_size_histogram_bytes" (codeMethodLabels r resp)
            (computeApproximateRequestSize r)])
      ∧ ((((instrumentClientWithConstLabels n c reg cl).1.transport.getD DefaultTransport) r).2.filter
          (Event.isObserveOf "response_content_length_histogram"))
        = [Event.observe "response_content_length_histogram" (codeMethodLabels r resp)
            resp.contentLength]) := by
  rw [instrumented_transport_apply]
  constructor
  · intro msg hmsg
    simp only [chainEvents, hmsg, List.filter_cons, List.filter_append]
    have hb : (baseTransport c (tracedRequest n cl r)).2.filter
        Event.isCompletionObservation = [] :=
      List.filter_eq_nil_iff.mpr (fun e he => by
        simp [hbase (tracedRequest n cl r) e he])
    simp [hb, Event.isCompletionObservation, Event.isObserveOf, Event.isCounterIncOf]
  · intro resp hresp
    have hb : ∀ e ∈ (baseTransport c (tracedRequest n cl r)).2,
        Event.isCompletionObservation e = false :=
      fun e he => hbase (tracedRequest n cl r) e he
    constructor
    · simp only [chainEvents, hresp, List.filter_cons, List.filter_append]
      have h1 : (baseTransport c (tracedRequest n cl r)).2.filter
          (Event.isObserveOf "request_size_histogram_bytes") = [] :=
        List.filter_eq_nil_iff.mpr (fun e he => by
          simp [(completion_false_components e (hb e he)).2.1])
      simp [h1, Event.isObserveOf, codeMethodLabels]
    · simp only [chainEvents, hresp, List.filter_cons, List.filter_append]
      have h2 : (baseTransport c (tracedRequest n cl r)).2.filter
          (Event.isObserveOf "response_content_length_histogram") = [] :=
        List.filter_eq_nil_iff.mpr (fun e he => by
          simp [(completion_false_components e (hb e he)).2.2])
      simp [h2, Event.isObserveOf, codeMethodLabels]

/-- Witness for the success-only observation theorem: a client around
`okTransport` and a concrete GET request, the clean-base and success
hypotheses discharged at the concrete values. -/
theorem observations_success_only_witness :
    ((((instrumentClientWithConstLabels "app" okClient [] [("recipient", "billing")]).1.transport.getD
        DefaultTransport) getRequest).2.filter
      (Event.isObserveOf "request_size_histogram_bytes"))
      = [Event.observe "request_size_histogram_bytes"
          (codeMethodLabels getRequest { statusCode := 200, contentLength := 42 })
          (computeApproximateRequestSize getRequest)] :=
  ((observations_success_only "app" okClient [] [("recipient", "billing")] getRequest
      (fun _ e he => absurd he (List.not_mem_nil e))).2
    { statusCode := 200, contentLength := 42 } rfl).1

/-- C4 as stated is false on the code: a request whose declared content
length is `-2` (not the `-1` sentinel, but also not a known length) has
that value added, so the minimal request with content length `-2` gets
a negative size. -/
theorem approximate_size_negative_counterexample :
    computeApproximateRequestSize
      { method := "", proto := "", url := none, header := [], host := ""
        contentLength := -2 } < 0 := by
  decide

/-- C4 amended: the estimator always succeeds and returns exactly the
specification's sum (URL, method, protocol, header names and values,
host, plus the declared content length unless it is the `-1` sentinel),
and the result is non-negative whenever the declared content length is
`-1` or non-negative; a content length below `-1` is added as-is and
can make the result negative. -/
theorem approximate_size_formula_and_nonneg (r : Request) (h : -1 ≤ r.contentLength) :
    computeApproximateRequestSize r = approximateRequestSizeSpec r
    ∧ 0 ≤ computeApproximateRequestSize r := by
  refine ⟨computeApproximateRequestSize_eq_spec r, ?_⟩
  rw [computeApproximateRequestSize_eq_spec]
  unfold approximateRequestSizeSpec
  have h1 : (0 : Int) ≤ (match r.url with | some u => (u.length : Int) | none => 0) := by
    cases r.url <;> simp
  have h2 : (0 : Int) ≤ (r.header.map
      (fun nv => (nv.1.length : Int) + (nv.2.map (fun v => (v.length : Int))).sum)).sum := by
    apply List.sum_nonneg
    intro x hx
    obtain ⟨nv, hnv, rfl⟩ := List.mem_map.mp hx
    have hv : (0 : Int) ≤ (nv.2.map (fun v => (v.length : Int))).sum := by
      apply List.sum_nonneg
      intro y hy
      obtain ⟨v, hmem, rfl⟩ := List.mem_map.mp hy
      exact Int.natCast_nonneg _
    have hn := Int.natCast_nonneg nv.1.length
    linarith
  have h3 : (0 : Int) ≤ (if r.contentLength = -1 then 0 else r.contentLength) := by
    by_cases hcl : r.contentLength = -1
    · simp [hcl]
    · simp only [hcl, if_false]
      omega
  have h4 := Int.natCast_nonneg r.method.length
  have h5 := Int.natCast_nonneg r.proto.length
  have h6 := Int.natCast_nonneg r.host.length
  linarith

/-- Witness for the amended size claim at a concrete request. -/
theorem approximate_size_formula_and_nonneg_witness :
    computeApproximateRequestSize getRequest = approximateRequestSizeSpec getRequest
    ∧ 0 ≤ computeApproximateRequestSize getRequest :=
  approximate_size_formula_and_nonneg getRequest (by decide)

/-- C5: appending any single character to any one of a request's header
values increases the estimated size by exactly one.  The header list is
given by its decomposition around the value being extended. -/
theorem size_monotonic_in_header_value (r : Request)
    (pre post : List (String × List String)) (nm : String)
    (vpre vpost : List String) (v : String) (c : Char)
    (h : r.header = pre ++ (nm, vpre ++ v :: vpost) :: post) :
    computeApproximateRequestSize
        { r with header := pre ++ (nm, vpre ++ (v.push c) :: vpost) :: post }
      = computeApproximateRequestSize r + 1 := by
  rw [computeApproximateRequestSize_eq_spec, computeApproximateRequestSize_eq_spec]
  unfold approximateRequestSizeSpec
  simp only [h, List.map_append, List.sum_append, List.map_cons, List.sum_cons,
    String.length_push]
  by_cases hcl : r.contentLength = -1 <;> simp [hcl] <;> ring

/-- Witness for strict monotonicity at a concrete request, header and
character. -/
theorem size_monotonic_in_header_value_witness :
    computeApproximateRequestSize
        { getRequest with
            header := [] ++ ("Accept", [] ++ (String.push "text/plain" '!') :: []) :: [] }
      = computeApproximateRequestSize getRequest + 1 :=
  size_monotonic_in_header_value getRequest [] [] "Accept" [] [] "text/plain" '!' rfl

/-- C6: on success, the response-size layer appends exactly one
observation into its histogram, labeled by status code and lower-cased
method, whose value is the response's declared content length passed
through verbatim — never clamped to zero and never skipped, whatever
its sign. -/
theorem response_content_length_observed_verbatim (obs : HistogramVec)
    (next : RoundTripper) (r : Request) (resp : Response) (evs : List Event)
    (h : next r = (Except.ok resp, evs)) :
    (instrumentRoundTripperResponseContentLength obs next) r
      = (Except.ok resp,
         evs ++ [Event.observe obs.opts.name (codeMethodLabels r resp) resp.contentLength]) := by
  simp [instrumentRoundTripperResponseContentLength, h, codeMethodLabels]

/-- Witness with declared content length `-1`: the unknown-length
sentinel is observed as `-1` itself. -/
theorem response_content_length_observed_verbatim_witness :
    (instrumentRoundTripperResponseContentLength
        (mkOutgoingInstrumentation "app" [("recipient", "billing")]).responseContentLength
        (fun _ => (Except.ok { statusCode := 200, contentLength := -1 }, [])))
        getRequest
      = (Except.ok { statusCode := 200, contentLength := -1 },
         [Event.observe "response_content_length_histogram"
            (codeMethodLabels getRequest { statusCode := 200, contentLength := -1 })
            (-1)]) :=
  response_content_length_observed_verbatim
    (mkOutgoingInstrumentation "app" [("recipient", "billing")]).responseContentLength
    (fun _ => (Except.ok { statusCode := 200, contentLength := -1 }, []))
    getRequest { statusCode := 200, contentLength := -1 } [] rfl

/-- C7: `ForRecipient` returns a new client that keeps the base
client's redirect policy, cookie jar and timeout, replacing only the
transport; the new transport's functional outcome is that of the base
client's transport — the default transport when the base has none set.
The embedding is pure, so the base client value is untouched by
construction: the returned client is built from the base's fields
without writing to them. -/
theorem forRecipient_preserves_fields {ρ ζ : Type} (c : Client ρ ζ) (recipient : String) :
    (c.ForRecipient recipient).1.checkRedirect = c.client.checkRedirect
    ∧ (c.ForRecipient recipient).1.jar = c.client.jar
    ∧ (c.ForRecipient recipient).1.timeout = c.client.timeout
    ∧ (∀ r, (((c.ForRecipient recipient).1.transport.getD DefaultTransport) r).1
        = (baseTransport c.client (tracedRequest c.nspace [("recipient", recipient)] r)).1)
    ∧ (c.client.transport = none → baseTransport c.client = DefaultTransport) := by
  refine ⟨rfl, rfl, rfl, ?_, ?_⟩
  · intro r
    rw [Client.ForRecipient, instrumented_transport_apply]
  · intro hnone
    simp [baseTransport, hnone]

/-- Witness for field preservation on a transport-less base client; the
no-transport hypothesis is discharged by `rfl`. -/
theorem forRecipient_preserves_fields_witness :
    (noneClient.ForRecipient "billing").1.timeout = noneClient.client.timeout
    ∧ baseTransport noneClient.client = DefaultTransport :=
  ⟨(forRecipient_preserves_fields noneClient "billing").2.2.1,
   (forRecipient_preserves_fields noneClient "billing").2.2.2.2 rfl⟩

/-- C8: `ForRecipient` returns a non-nil error exactly when
registration of the Metric Set fails, which happens exactly when one of
its descriptors is already registered (duplicate metric definition);
and the instrumentation layers never change the functional outcome, so
they introduce no failure mode of their own. -/
theorem forRecipient_error_iff_duplicate {ρ ζ : Type} (c : Client ρ ζ) (recipient : String) :
    ((c.ForRecipient recipient).2 ≠ none
      ↔ (mkOutgoingInstrumentation c.nspace [("recipient", recipient)]).descs.any
          (fun d => c.registerer.contains d) = true)
    ∧ (∀ r, (((c.ForRecipient recipient).1.transport.getD DefaultTransport) r).1
        = (baseTransport c.client (tracedRequest c.nspace [("recipient", recipient)] r)).1) := by
  constructor
  · show (Register c.registerer
        (mkOutgoingInstrumentation c.nspace [("recipient", recipient)]) ≠ none) ↔ _
    by_cases hdup : (mkOutgoingInstrumentation c.nspace [("recipient", recipient)]).descs.any
        (fun d => c.registerer.contains d) = true
    · simp [Register, hdup]
    · simp [Register, hdup]
  · intro r
    rw [Client.ForRecipient, instrumented_transport_apply]

/-- Witness for the registration-error equivalence on a client with an
empty registry: no error, no duplicate. -/
theorem forRecipient_error_iff_duplicate_witness :
    ((noneClient.ForRecipient "billing").2 ≠ none
      ↔ (mkOutgoingInstrumentation noneClient.nspace [("recipient", "billing")]).descs.any
          (fun d => noneClient.registerer.contains d) = true) :=
  (forRecipient_error_iff_duplicate noneClient "billing").1

/-- C9 as stated is false on the code: the Metric Set delegates to
seven instruments, not six, and five of them are histograms, not
four (`duration`, `dnsDuration`, `tlsDuration`, `requestSize`,
`responseContentLength`). -/
theorem metric_set_not_six_instruments :
    (mkOutgoingInstrumentation "app" [("recipient", "billing")]).Describe.length ≠ 6
    ∧ (mkOutgoingInstrumentation "app" [("recipient", "billing")]).Describe.countP
        Instrument.isHistogram ≠ 4 := by
  constructor
  · decide
  · decide

/-- C9 amended: the Metric Set is a bundle of exactly seven observable
instruments — one counter, five histograms and one gauge — all sharing
the same namespace, subsystem tag and constant label set, and its
Describe and Collect operations delegate to every contained instrument
in the same fixed order. -/
theorem metric_set_composition (n : String) (cl : List (String × String)) :
    (mkOutgoingInstrumentation n cl).Describe.length = 7
    ∧ (mkOutgoingInstrumentation n cl).Describe.countP Instrument.isCounter = 1
    ∧ (mkOutgoingInstrumentation n cl).Describe.countP Instrument.isHistogram = 5
    ∧ (mkOutgoingInstrumentation n cl).Describe.countP Instrument.isGauge = 1
    ∧ (∀ ins ∈ (mkOutgoingInstrumentation n cl).Describe,
        ins.nspace = n ∧ ins.subsystem = subsystemHTTPOutgoing ∧ ins.constLabels = cl)
    ∧ (mkOutgoingInstrumentation n cl).Describe = (mkOutgoingInstrumentation n cl).Collect := by
  refine ⟨rfl, rfl, rfl, rfl, ?_, rfl⟩
  intro ins hins
  simp only [outgoingInstrumentation.Describe, List.mem_cons, List.not_mem_nil,
    or_false] at hins
  rcases hins with rfl | rfl | rfl | rfl | rfl | rfl | rfl <;>
    exact ⟨rfl, rfl, rfl⟩

/-- Witness for the amended Metric Set claim: the shared-options
conjunct applied to the duration histogram of a concrete Metric Set. -/
theorem metric_set_composition_witness :
    (Instrument.histogramVec
        (mkOutgoingInstrumentation "app" [("recipient", "billing")]).duration).nspace = "app"
    ∧ (Instrument.histogramVec
        (mkOutgoingInstrumentation "app" [("recipient", "billing")]).duration).subsystem
        = subsystemHTTPOutgoing
    ∧ (Instrument.histogramVec
        (mkOutgoingInstrumentation "app" [("recipient", "billing")]).duration).constLabels
        = [("recipient", "billing")] :=
  ((metric_set_composition "app" [("recipient", "billing")]).2.2.2.2.1
    (Instrument.histogramVec
      (mkOutgoingInstrumentation "app" [("recipient", "billing")]).duration)
    (List.mem_cons_self _ _))

/-- C10: the factory builds and returns the instrumented client
unconditionally: when registration fails the client component is the
same fully built client it returns under any other registry, and it
carries the decorator-chain transport. -/
theorem client_returned_despite_registration_failure {ρ ζ : Type} (n : String)
    (c : HttpClient ρ ζ) (reg regB : List Desc) (cl : List (String × String))
    (h : (instrumentClientWithConstLabels n c reg cl).2 ≠ none) :
    (instrumentClientWithConstLabels n c reg cl).1
        = (instrumentClientWithConstLabels n c regB cl).1
    ∧ (instrumentClientWithConstLabels n c reg cl).1.transport.isSome = true :=
  ⟨rfl, rfl⟩

/-- Witness: registering against `dupRegistry` fails, yet the client
returned is the one an empty registry would give, with the chain
transport in place. -/
theorem client_returned_despite_registration_failure_witness :
    (instrumentClientWithConstLabels "app" okClient dupRegistry [("recipient", "billing")]).1
        = (instrumentClientWithConstLabels "app" okClient [] [("recipient", "billing")]).1
    ∧ (instrumentClientWithConstLabels "app" okClient dupRegistry
        [("recipient", "billing")]).1.transport.isSome = true :=
  client_returned_despite_registration_failure "app" okClient dupRegistry []
    [("recipient", "billing")] (by decide)

end Promhttp
